import Mathlib

/-!
Verification of the WhatsApp Bubble widget (`src/index.ts`).

The script is a browser IIFE: it reads three `data-*` attributes from its
script tag, fetches an authorization response, and — when authorized —
calls `initWidget`, which validates and defaults the configuration,
builds a styled `div` and appends it to `document.body`, wiring click and
keyboard handlers.  We embed the script shallowly: DOM and network
side effects become an explicit `Effect` trace, JS falsy defaulting
(`x || d`, `x !== false`) becomes explicit functions on `Option` values,
and the two regular expressions in the source (`^[0-9]{10,15}$` and the
case-insensitive mobile user-agent alternation) become executable
character-list predicates.
-/

namespace WhatsAppBubble

/-! ## JS value helpers

`config.<field> || default` in JS substitutes the default whenever the
field is falsy: absent (`undefined`), `0` for numbers, `""` for strings.
`config.<field> !== false` is `true` unless the field is exactly `false`.
-/

/-- JS `s || d` for an optional string field: `d` when absent or empty. -/
def jsOrStr (v : Option String) (d : String) : String :=
  match v with
  | none => d
  | some s => if s = "" then d else s

/-- JS `n || d` for an optional numeric field: `d` when absent or zero. -/
def jsOrInt (v : Option Int) (d : Int) : Int :=
  match v with
  | none => d
  | some n => if n = 0 then d else n

/-- JS `v !== false` for an optional boolean field. -/
def jsNeqFalse (v : Option Bool) : Bool :=
  match v with
  | some false => false
  | _ => true

/-- JS falsy test `!s` for a nullable string (e.g. `getAttribute` result). -/
def jsFalsyStr (v : Option String) : Bool :=
  match v with
  | none => true
  | some s => s == ""

/-! ## Configuration -/

/-- The `config` object delivered by the authorization response
(`WhatsAppConfig` in the source).  Every field is optional; the widget
applies its own defaulting. -/
structure WidgetConfig where
  phone_number : Option String := none
  default_message : Option String := none
  position : Option String := none
  enabled : Option Bool := none
  bubble_size : Option Int := none
  offset_x : Option Int := none
  offset_y : Option Int := none
  bubble_color : Option String := none
  show_tooltip : Option Bool := none
  tooltip_text : Option String := none
deriving DecidableEq

/-- The local constants computed at the top of `initWidget`
(source lines 48–56), with the JS defaulting applied. -/
structure ResolvedConfig where
  defaultMessage : String
  position : String
  enabled : Bool
  bubbleSize : Int
  offsetX : Int
  offsetY : Int
  bubbleColor : String
  showTooltip : Bool
  tooltipText : String
deriving DecidableEq

/-- `initWidget`, lines 48–56: defaulting of every field but the phone. -/
def resolveConfig (config : WidgetConfig) : ResolvedConfig where
  defaultMessage := jsOrStr config.default_message ""
  position := jsOrStr config.position "bottom-right"
  enabled := jsNeqFalse config.enabled
  bubbleSize := jsOrInt config.bubble_size 60
  offsetX := jsOrInt config.offset_x 20
  offsetY := jsOrInt config.offset_y 20
  bubbleColor := jsOrStr config.bubble_color "#25D366"
  showTooltip := jsNeqFalse config.show_tooltip
  tooltipText := jsOrStr config.tooltip_text "Chat with us on WhatsApp"

/-- The test `/^[0-9]\x7b10,15\x7d$/.test(phoneNumber)` (source line 43):
the whole string is 10 to 15 ASCII digits. -/
def phoneRegexTest (s : String) : Bool :=
  s.data.all (fun c => c.isDigit) && decide (10 ≤ s.data.length)
    && decide (s.data.length ≤ 15)

/-! ## The positions record and the inline style -/

/-- The four-entry `positions` record (source lines 64–69); lookup of any
other key yields JS `undefined`, here `none`. -/
def positionsRecord (offsetX offsetY : Int) (key : String) : Option String :=
  if key = "bottom-right" then
    some ("bottom: " ++ toString offsetY ++ "px; right: " ++ toString offsetX ++ "px;")
  else if key = "bottom-left" then
    some ("bottom: " ++ toString offsetY ++ "px; left: " ++ toString offsetX ++ "px;")
  else if key = "top-right" then
    some ("top: " ++ toString offsetY ++ "px; right: " ++ toString offsetX ++ "px;")
  else if key = "top-left" then
    some ("top: " ++ toString offsetY ++ "px; left: " ++ toString offsetX ++ "px;")
  else none

/-- The newline-plus-indentation between lines of the `cssText` template
literal (source lines 73–87). -/
def cssNl : String := "\n      "

/-- The `bubble.style.cssText` template literal (source lines 73–87).
`posFrag` stands for the interpolation `$\x7bpositions[position]\x7d`: the
record value when the key is known, the string `undefined` otherwise
(JS stringifies the `undefined` value inside a template literal). -/
def bubbleCssText (posFrag : String) (bubbleSize : Int) (bubbleColor : String) : String :=
  cssNl ++ "position: fixed;" ++
  cssNl ++ posFrag ++
  cssNl ++ "width: " ++ toString bubbleSize ++ "px;" ++
  cssNl ++ "height: " ++ toString bubbleSize ++ "px;" ++
  cssNl ++ "background-color: " ++ bubbleColor ++ ";" ++
  cssNl ++ "border-radius: 50%;" ++
  cssNl ++ "display: flex;" ++
  cssNl ++ "align-items: center;" ++
  cssNl ++ "justify-content: center;" ++
  cssNl ++ "cursor: pointer;" ++
  cssNl ++ "box-shadow: 0 4px 12px rgba(0,0,0,0.15);" ++
  cssNl ++ "z-index: 999999;" ++
  cssNl ++ "transition: transform 0.3s ease, box-shadow 0.3s ease;" ++
  "\n    "

/-- The `bubble.innerHTML` SVG icon (source lines 90–94). -/
def whatsappIconHtml : String :=
  "\n      <svg width=\"60%\" height=\"60%\" viewBox=\"0 0 24 24\" fill=\"white\">\n        <path d=\"M17.472 14.382c-.297-.149-1.758-.867-2.03-.967-.273-.099-.471-.148-.67.15-.197.297-.767.966-.94 1.164-.173.199-.347.223-.644.075-.297-.15-1.255-.463-2.39-1.475-.883-.788-1.48-1.761-1.653-2.059-.173-.297-.018-.458.13-.606.134-.133.298-.347.446-.52.149-.174.198-.298.298-.497.099-.198.05-.371-.025-.52-.075-.149-.669-1.612-.916-2.207-.242-.579-.487-.5-.669-.51-.173-.008-.371-.01-.57-.01-.198 0-.52.074-.792.372-.272.297-1.04 1.016-1.04 2.479 0 1.462 1.065 2.875 1.213 3.074.149.198 2.096 3.2 5.077 4.487.709.306 1.262.489 1.694.625.712.227 1.36.195 1.871.118.571-.085 1.758-.719 2.006-1.413.248-.694.248-1.289.173-1.413-.074-.124-.272-.198-.57-.347m-5.421 7.403h-.004a9.87 9.87 0 01-5.031-1.378l-.361-.214-3.741.982.998-3.648-.235-.374a9.86 9.86 0 01-1.51-5.26c.001-5.45 4.436-9.884 9.888-9.884 2.64 0 5.122 1.03 6.988 2.898a9.825 9.825 0 012.893 6.994c-.003 5.45-4.437 9.884-9.885 9.884m8.413-18.297A11.815 11.815 0 0012.05 0C5.495 0 .16 5.335.157 11.892c0 2.096.547 4.142 1.588 5.945L.057 24l6.305-1.654a11.882 11.882 0 005.683 1.448h.005c6.554 0 11.89-5.335 11.893-11.893a11.821 11.821 0 00-3.48-8.413Z\"/>\n      </svg>\n    "

/-- The rendered container element: its inline style, icon markup and
attributes (handlers are modelled separately as functions). -/
structure Bubble where
  cssText : String
  innerHTML : String
  title : Option String
  ariaLabel : Option String
  role : String
  tabindex : String
deriving DecidableEq

/-- Construction of the bubble element (source lines 72–104): style from
the template, icon markup, tooltip attributes when enabled, and the
accessibility attributes. -/
def mkBubble (r : ResolvedConfig) : Bubble where
  cssText :=
    bubbleCssText ((positionsRecord r.offsetX r.offsetY r.position).getD "undefined")
      r.bubbleSize r.bubbleColor
  innerHTML := whatsappIconHtml
  title := if r.showTooltip then some r.tooltipText else none
  ariaLabel := if r.showTooltip then some r.tooltipText else none
  role := "button"
  tabindex := "0"

/-! ## Effects -/

/-- The `event_data` object of the analytics POST body (source lines 125–129). -/
structure AnalyticsEventData where
  phone : String
  has_message : Bool
  position : String
deriving DecidableEq

/-- The JSON body of the analytics POST (source lines 121–130). -/
structure AnalyticsBody where
  website_id : String
  app_id : String
  event_type : String
  event_data : AnalyticsEventData
deriving DecidableEq

/-- Observable side effects of the script: console output, network
requests, the DOM append, and `window.open`. -/
inductive Effect where
  | log (msg : String)
  | error (msg : String)
  | warn (msg : String)
  | fetchGet (url : String)
  | fetchPost (url : String) (body : AnalyticsBody)
  | appendBody (bubble : Bubble)
  | openWindow (url : String) (target : String)
deriving DecidableEq

/-- Does the effect append a container element to the document body? -/
def isAppendEffect : Effect → Bool
  | .appendBody _ => true
  | _ => false

/-- Is the effect a network request (`fetch`)? -/
def isNetworkEffect : Effect → Bool
  | .fetchGet _ => true
  | .fetchPost _ _ => true
  | _ => false

/-! ## initWidget -/

/-- The effect trace of `initWidget(config, app)` (source lines 35–161):
abort on a falsy phone number, abort on a malformed phone number, abort
(with an informational log) when disabled, otherwise build the bubble and
append it. -/
def initWidgetEffects (config : WidgetConfig) : List Effect :=
  match config.phone_number with
  | none => [.error "[WhatsApp Bubble] phone_number is required in configuration"]
  | some pn =>
    if pn = "" then
      [.error "[WhatsApp Bubble] phone_number is required in configuration"]
    else if phoneRegexTest pn then
      let r := resolveConfig config
      if r.enabled then
        [.appendBody (mkBubble r),
         .log "[WhatsApp Bubble] Widget initialized successfully"]
      else
        [.log "[WhatsApp Bubble] Widget is disabled"]
    else
      [.error "[WhatsApp Bubble] Invalid phone_number format. Must be 10-15 digits."]

/-! ## Device classification and the click handler -/

/-- The alternatives of the user-agent regular expression
`/Android|webOS|iPhone|iPad|iPod|BlackBerry|IEMobile|Opera Mini/i`
(source line 109). -/
def mobileTokens : List String :=
  ["Android", "webOS", "iPhone", "iPad", "iPod", "BlackBerry", "IEMobile", "Opera Mini"]

/-- Case-insensitive character comparison (the `i` regex flag). -/
def charEqCI (a b : Char) : Bool := a.toLower == b.toLower

/-- Does `needle` match case-insensitively at the head of `hay`? -/
def matchesAtCI : List Char → List Char → Bool
  | [], _ => true
  | _ :: _, [] => false
  | a :: as, b :: bs => charEqCI a b && matchesAtCI as bs

/-- Regex-style scan: does `needle` match case-insensitively at some
position of `hay`? -/
def containsCI : List Char → List Char → Bool
  | [], needle => matchesAtCI needle []
  | h :: t, needle => matchesAtCI needle (h :: t) || containsCI t needle

/-- The device classification of `handleClick` (source line 109): the
user-agent regex test. -/
def isMobileUA (ua : String) : Bool :=
  mobileTokens.any (fun t => containsCI ua.data t.data)

/-- Characters `encodeURIComponent` leaves unescaped: ASCII alphanumerics
and `- _ . ! ~ *` plus apostrophe (0x27) and the two parentheses. -/
def isUriUnreserved (c : Char) : Bool :=
  c.isAlphanum || c = '-' || c = '_' || c = '.' || c = '!' || c = '~'
    || c = '*' || c = Char.ofNat 39 || c = Char.ofNat 40 || c = Char.ofNat 41

/-- Uppercase hexadecimal digit, as produced by `encodeURIComponent`. -/
def hexDigitChar (n : Nat) : Char :=
  if n < 10 then Char.ofNat (48 + n) else Char.ofNat (55 + n)

/-- A percent-escape `%XY` for one byte. -/
def percentEncodeByte (b : Nat) : List Char :=
  [Char.ofNat 37, hexDigitChar (b / 16), hexDigitChar (b % 16)]

/-- The UTF-8 bytes of a code point. -/
def utf8Bytes (c : Char) : List Nat :=
  let n := c.toNat
  if n < 128 then [n]
  else if n < 2048 then [192 + n / 64, 128 + n % 64]
  else if n < 65536 then [224 + n / 4096, 128 + n / 64 % 64, 128 + n % 64]
  else [240 + n / 262144, 128 + n / 4096 % 64, 128 + n / 64 % 64, 128 + n % 64]

/-- JS `encodeURIComponent`: unreserved characters pass through, every
other character is percent-encoded byte by byte. -/
def encodeURIComponent (s : String) : String :=
  String.mk (s.data.foldr
    (fun c acc =>
      (if isUriUnreserved c then [c]
       else (utf8Bytes c).foldr (fun b acc2 => percentEncodeByte b ++ acc2) []) ++ acc)
    [])

/-- The deep-link URL computed by `handleClick` (source lines 107–113). -/
def handleClickUrl (ua phoneNumber defaultMessage : String) : String :=
  let message := encodeURIComponent defaultMessage
  if isMobileUA ua then
    "whatsapp://send?phone=" ++ phoneNumber ++ "&text=" ++ message
  else
    "https://web.whatsapp.com/send?phone=" ++ phoneNumber ++ "&text=" ++ message

/-- The values the `handleClick` closure captures from the bootstrap and
from `initWidget`. -/
structure ClickCtx where
  websiteId : String
  appId : String
  appManagerUrl : String
  phoneNumber : String
  defaultMessage : String
  position : String
deriving DecidableEq

/-- The analytics POST body (source lines 121–130); `has_message` is the
JS double negation `!!defaultMessage`. -/
def analyticsBody (ctx : ClickCtx) : AnalyticsBody where
  website_id := ctx.websiteId
  app_id := ctx.appId
  event_type := "whatsapp_clicked"
  event_data :=
    { phone := ctx.phoneNumber
      has_message := ctx.defaultMessage != ""
      position := ctx.position }

/-- The effect trace of one `handleClick` activation (source lines
107–134).  The analytics `fetch` is fire-and-forget: `window.open` runs
synchronously after the request is issued, and a rejection only runs the
`.catch` warning afterwards — `analyticsRejects` selects that outcome. -/
def handleClickEffects (ctx : ClickCtx) (ua : String) (analyticsRejects : Bool) :
    List Effect :=
  let url := handleClickUrl ua ctx.phoneNumber ctx.defaultMessage
  [.log ("[WhatsApp Bubble] Opening WhatsApp: " ++ url),
   .fetchPost (ctx.appManagerUrl ++ "/api/widget/analytics") (analyticsBody ctx),
   .openWindow url "_blank"] ++
  (if analyticsRejects then [.warn "[WhatsApp Bubble] Analytics failed:"] else [])

/-- The keydown listener (source lines 139–144): on `Enter` or space it
calls `preventDefault` and then `handleClick`; any other key does
nothing.  Returns whether `preventDefault` was called, paired with the
effects of the activation. -/
def keydownHandler (ctx : ClickCtx) (ua : String) (analyticsRejects : Bool)
    (key : String) : Bool × List Effect :=
  if key = "Enter" || key = " " then
    (true, handleClickEffects ctx ua analyticsRejects)
  else
    (false, [])

/-- The phone-number pattern `^[0-9]\x7b10,15\x7d$` stated as a proposition:
the string is 10 to 15 characters, all ASCII digits. -/
def PhoneMatchesPattern (s : String) : Prop :=
  10 ≤ s.data.length ∧ s.data.length ≤ 15 ∧ ∀ c ∈ s.data, c.isDigit = true

instance (s : String) : Decidable (PhoneMatchesPattern s) := by
  unfold PhoneMatchesPattern; infer_instance

/-- A configuration whose every optional field is present but falsy. -/
def falsyCfg : WidgetConfig where
  phone_number := some "5491112345678"
  default_message := some ""
  position := some ""
  enabled := some false
  bubble_size := some 0
  offset_x := some 0
  offset_y := some 0
  bubble_color := some ""
  show_tooltip := some false
  tooltip_text := some ""

/-- Does the inline style contain any of the four corner-offset
declarations (`top:`, `bottom:`, `left:`, `right:` followed by a value)? -/
def hasCornerDecl (s : String) : Bool :=
  ["top: ", "bottom: ", "left: ", "right: "].any (fun t => decide (t.data <:+: s.data))

/-- A valid enabled configuration with explicit corner, offsets and size. -/
def cornerCfg : WidgetConfig where
  phone_number := some "5491112345678"
  position := some "top-left"
  offset_x := some 5
  offset_y := some 7
  bubble_size := some 44

/-- A valid enabled configuration whose position is not one of the four
corner keywords. -/
def weirdPosCfg : WidgetConfig where
  phone_number := some "5491112345678"
  position := some "middle"

/-! ## Bootstrap -/

/-- Outcome of the authorization `fetch` chain: rejection (network or
parse failure), or a parsed JSON body with its `authorized` flag and
optional `config` object. -/
inductive FetchOutcome where
  | reject
  | resolve (authorized : Bool) (config : Option WidgetConfig)
deriving DecidableEq

/-- The effect trace of the IIFE bootstrap (source lines 5–33): read the
three attributes, abort when any is missing, otherwise issue the
authorization GET and continue according to its outcome
(`data.config || \x7b\x7d` defaults the config object). -/
def bootstrapEffects (websiteId appId appManagerUrl : Option String)
    (outcome : FetchOutcome) : List Effect :=
  [.log "[WhatsApp Bubble] Loading...", .log "[WhatsApp Bubble] Config:"] ++
  (if jsFalsyStr websiteId || jsFalsyStr appId || jsFalsyStr appManagerUrl then
    [.error "[WhatsApp Bubble] Missing required attributes: data-website-id, data-app-id, or data-app-manager-url"]
  else
    [.fetchGet ((appManagerUrl.getD "") ++ "/api/widget/authorize?website_id="
        ++ (websiteId.getD "") ++ "&app_id=" ++ (appId.getD ""))] ++
    match outcome with
    | .reject => [.error "[WhatsApp Bubble] Authorization failed:"]
    | .resolve authorized config =>
      [.log "[WhatsApp Bubble] Authorization data:"] ++
      if authorized then initWidgetEffects (config.getD {})
      else [.error "[WhatsApp Bubble] Not authorized:"])

/-! ## Bridge lemmas -/

theorem phoneRegexTest_iff (s : String) :
    phoneRegexTest s = true ↔ PhoneMatchesPattern s := by
  unfold phoneRegexTest PhoneMatchesPattern
  simp [List.all_eq_true]
  tauto

theorem jsNeqFalse_eq_false_iff (v : Option Bool) :
    jsNeqFalse v = false ↔ v = some false := by
  cases v with
  | none => simp [jsNeqFalse]
  | some b => cases b <;> simp [jsNeqFalse]

/-! ## Claims -/

/-- C1: for every configuration with `enabled` exactly `false`,
`initWidget` returns without appending any container element to the
document body. -/
theorem disabled_config_never_appends (config : WidgetConfig)
    (h : config.enabled = some false) :
    ∀ e ∈ initWidgetEffects config, isAppendEffect e = false := by
  unfold initWidgetEffects
  cases hpn : config.phone_number with
  | none => simp [isAppendEffect]
  | some pn =>
    by_cases h1 : pn = ""
    · simp [h1, isAppendEffect]
    · by_cases h2 : phoneRegexTest pn
      · have hen : (resolveConfig config).enabled = false := by
          simp [resolveConfig, jsNeqFalse, h]
        simp [h1, h2, hen, isAppendEffect]
      · simp [h1, h2, isAppendEffect]

/-- Witness for C1 at a concrete disabled configuration. -/
theorem disabled_config_never_appends_witness :
    ({ phone_number := some "5491112345678", enabled := some false} :
        WidgetConfig).enabled = some false ∧
    ∀ e ∈ initWidgetEffects
        { phone_number := some "5491112345678", enabled := some false},
      isAppendEffect e = false :=
  ⟨rfl, disabled_config_never_appends _ rfl⟩

/-- C2: for every configuration whose phone number is absent, empty, or
fails the `^[0-9]\x7b10,15\x7d$` pattern, `initWidget` aborts before any
rendering: no container element is ever appended. -/
theorem invalid_phone_never_appends (config : WidgetConfig)
    (h : ∀ s, config.phone_number = some s → ¬ PhoneMatchesPattern s) :
    ∀ e ∈ initWidgetEffects config, isAppendEffect e = false := by
  unfold initWidgetEffects
  cases hpn : config.phone_number with
  | none => simp [isAppendEffect]
  | some pn =>
    have hno : phoneRegexTest pn = false := by
      have hx := h pn hpn
      rw [← phoneRegexTest_iff] at hx
      simpa using hx
    by_cases h1 : pn = ""
    · simp [h1, isAppendEffect]
    · simp [h1, hno, isAppendEffect]

/-- Witness for C2 at a concrete malformed phone number. -/
theorem invalid_phone_never_appends_witness :
    (initWidgetEffects { phone_number := some "123" }).all
      (fun e => !isAppendEffect e) = true := by
  have h := invalid_phone_never_appends { phone_number := some "123" }
    (fun s hs => by cases hs; decide)
  simpa [List.all_eq_true] using h

/-- C9: JS falsy defaulting treats `0` and `""` as unset — `bubble_size = 0`
resolves to `60`, zero offsets resolve to `20`, empty-string `position`,
`bubble_color`, `tooltip_text`, `default_message` resolve to their
defaults — while `enabled` and `show_tooltip` resolve to `false` exactly
when the configured value is `false`. -/
theorem falsy_values_resolve_to_defaults (config : WidgetConfig) :
    (config.bubble_size = some 0 → (resolveConfig config).bubbleSize = 60) ∧
    (config.offset_x = some 0 → (resolveConfig config).offsetX = 20) ∧
    (config.offset_y = some 0 → (resolveConfig config).offsetY = 20) ∧
    (config.position = some "" → (resolveConfig config).position = "bottom-right") ∧
    (config.bubble_color = some "" → (resolveConfig config).bubbleColor = "#25D366") ∧
    (config.tooltip_text = some "" →
      (resolveConfig config).tooltipText = "Chat with us on WhatsApp") ∧
    (config.default_message = some "" → (resolveConfig config).defaultMessage = "") ∧
    ((resolveConfig config).enabled = false ↔ config.enabled = some false) ∧
    ((resolveConfig config).showTooltip = false ↔ config.show_tooltip = some false) := by
  refine ⟨fun h => ?_, fun h => ?_, fun h => ?_, fun h => ?_, fun h => ?_,
    fun h => ?_, fun h => ?_, ?_, ?_⟩ <;>
    simp [resolveConfig, jsOrInt, jsOrStr, jsNeqFalse_eq_false_iff, *]

/-- Witness for C9 at a configuration whose every field is falsy. -/
theorem falsy_values_resolve_to_defaults_witness :
    (resolveConfig falsyCfg).bubbleSize = 60 ∧
    (resolveConfig falsyCfg).offsetX = 20 ∧
    (resolveConfig falsyCfg).offsetY = 20 ∧
    (resolveConfig falsyCfg).position = "bottom-right" ∧
    (resolveConfig falsyCfg).bubbleColor = "#25D366" ∧
    (resolveConfig falsyCfg).tooltipText = "Chat with us on WhatsApp" ∧
    (resolveConfig falsyCfg).defaultMessage = "" ∧
    ((resolveConfig falsyCfg).enabled = false ↔ falsyCfg.enabled = some false) ∧
    ((resolveConfig falsyCfg).showTooltip = false ↔ falsyCfg.show_tooltip = some false) :=
  ⟨(falsy_values_resolve_to_defaults falsyCfg).1 rfl,
   (falsy_values_resolve_to_defaults falsyCfg).2.1 rfl,
   (falsy_values_resolve_to_defaults falsyCfg).2.2.1 rfl,
   (falsy_values_resolve_to_defaults falsyCfg).2.2.2.1 rfl,
   (falsy_values_resolve_to_defaults falsyCfg).2.2.2.2.1 rfl,
   (falsy_values_resolve_to_defaults falsyCfg).2.2.2.2.2.1 rfl,
   (falsy_values_resolve_to_defaults falsyCfg).2.2.2.2.2.2.1 rfl,
   (falsy_values_resolve_to_defaults falsyCfg).2.2.2.2.2.2.2.1,
   (falsy_values_resolve_to_defaults falsyCfg).2.2.2.2.2.2.2.2⟩

theorem matchesAtCI_iff (n h : List Char) :
    matchesAtCI n h = true ↔ (n.map Char.toLower) <+: (h.map Char.toLower) := by
  induction n generalizing h with
  | nil => simp [matchesAtCI]
  | cons a as ih =>
    cases h with
    | nil => simp [matchesAtCI]
    | cons b bs => simp [matchesAtCI, charEqCI, List.cons_prefix_cons, ih]

theorem containsCI_iff (h n : List Char) :
    containsCI h n = true ↔ (n.map Char.toLower) <:+: (h.map Char.toLower) := by
  induction h with
  | nil => cases n <;> simp [containsCI, matchesAtCI]
  | cons c t ih =>
    simp [containsCI, matchesAtCI_iff, ih, List.infix_cons_iff]

/-- C5: a user-agent classifies as mobile if and only if it contains one
of the tokens `Android`, `webOS`, `iPhone`, `iPad`, `iPod`, `BlackBerry`,
`IEMobile`, `Opera Mini` as a case-insensitive substring; every other
user-agent classifies as desktop. -/
theorem mobile_classification (ua : String) :
    isMobileUA ua = true ↔
      ∃ t ∈ mobileTokens, (t.data.map Char.toLower) <:+: (ua.data.map Char.toLower) := by
  simp [isMobileUA, containsCI_iff]

/-- Witness for C5: an upper-cased iPhone user-agent classifies as
mobile; a Windows desktop user-agent does not. -/
theorem mobile_classification_witness :
    isMobileUA "Mozilla/5.0 (IPHONE; CPU OS 17)" = true ∧
    isMobileUA "Mozilla/5.0 (Windows NT 10.0; Win64)" = false :=
  ⟨(mobile_classification _).mpr ⟨"iPhone", by decide, by decide⟩, by decide⟩

theorem suffix_of_three_appends {α : Type} (n a b c : List α) :
    n <:+ a ++ (b ++ (c ++ n)) := ⟨a ++ (b ++ c), by simp⟩

/-- C4: a click activation computes `whatsapp://send?phone=...&text=...`
on a mobile user-agent and `https://web.whatsapp.com/send?phone=...&text=...`
otherwise, with the message URL-encoded; an unset or empty message makes
the URL end in `text=` with an empty value. -/
theorem click_deep_link (ctx : ClickCtx) (ua : String) (analyticsRejects : Bool) :
    Effect.openWindow (handleClickUrl ua ctx.phoneNumber ctx.defaultMessage) "_blank"
        ∈ handleClickEffects ctx ua analyticsRejects ∧
    (isMobileUA ua = true →
      handleClickUrl ua ctx.phoneNumber ctx.defaultMessage =
        "whatsapp://send?phone=" ++ ctx.phoneNumber ++ "&text=" ++
          encodeURIComponent ctx.defaultMessage) ∧
    (isMobileUA ua = false →
      handleClickUrl ua ctx.phoneNumber ctx.defaultMessage =
        "https://web.whatsapp.com/send?phone=" ++ ctx.phoneNumber ++ "&text=" ++
          encodeURIComponent ctx.defaultMessage) ∧
    (ctx.defaultMessage = "" →
      encodeURIComponent ctx.defaultMessage = "" ∧
      "text=".data <:+ (handleClickUrl ua ctx.phoneNumber ctx.defaultMessage).data) := by
  refine ⟨?_, fun h => ?_, fun h => ?_, fun h => ?_⟩
  · simp [handleClickEffects]
  · simp [handleClickUrl, h]
  · simp [handleClickUrl, h]
  · rw [h]
    refine ⟨rfl, ?_⟩
    have henc : encodeURIComponent "" = "" := rfl
    have hsplit : ("&text=" : String) = "&" ++ "text=" := rfl
    unfold handleClickUrl
    by_cases hm : isMobileUA ua <;>
      simp only [hm, if_true, if_false, Bool.false_eq_true, henc, hsplit,
        String.append_empty, String.append_assoc, String.data_append] <;>
      exact suffix_of_three_appends _ _ _ _

/-- Witness for C4, at the phone number and message of the spec example
and two concrete user-agents. -/
theorem click_deep_link_witness :
    handleClickUrl "Android 14" "5491112345678" "Hello" =
      "whatsapp://send?phone=5491112345678&text=Hello" ∧
    handleClickUrl "Mozilla/5.0 (X11; Linux x86_64)" "5491112345678" "Hello" =
      "https://web.whatsapp.com/send?phone=5491112345678&text=Hello" ∧
    encodeURIComponent "" = "" ∧
    "text=".data <:+ (handleClickUrl "Android 14" "5491112345678" "").data :=
  ⟨by
    have h := (click_deep_link
      { websiteId := "w", appId := "a", appManagerUrl := "u",
        phoneNumber := "5491112345678", defaultMessage := "Hello",
        position := "bottom-right" } "Android 14" false).2.1 (by decide)
    simpa using h,
   by
    have h := (click_deep_link
      { websiteId := "w", appId := "a", appManagerUrl := "u",
        phoneNumber := "5491112345678", defaultMessage := "Hello",
        position := "bottom-right" } "Mozilla/5.0 (X11; Linux x86_64)" false).2.2.1
      (by decide)
    simpa using h,
   rfl,
   by
    have h := (click_deep_link
      { websiteId := "w", appId := "a", appManagerUrl := "u",
        phoneNumber := "5491112345678", defaultMessage := "",
        position := "bottom-right" } "Android 14" false).2.2.2 rfl
    simpa using h.2⟩

/-- C6: on every click activation the analytics POST is issued, a
rejection is swallowed into a console warning, and `window.open` receives
the computed deep-link regardless of the analytics outcome. -/
theorem analytics_failure_never_blocks_open (ctx : ClickCtx) (ua : String) :
    (∀ analyticsRejects,
      Effect.openWindow (handleClickUrl ua ctx.phoneNumber ctx.defaultMessage) "_blank"
        ∈ handleClickEffects ctx ua analyticsRejects) ∧
    Effect.fetchPost (ctx.appManagerUrl ++ "/api/widget/analytics") (analyticsBody ctx)
      ∈ handleClickEffects ctx ua true ∧
    handleClickEffects ctx ua true =
      handleClickEffects ctx ua false ++ [.warn "[WhatsApp Bubble] Analytics failed:"] := by
  refine ⟨fun analyticsRejects => ?_, ?_, ?_⟩ <;> simp [handleClickEffects]

/-- Witness for C6 at a concrete context and user-agent. -/
theorem analytics_failure_never_blocks_open_witness :
    Effect.openWindow
      (handleClickUrl "Android 14" "5491112345678" "Hello") "_blank"
      ∈ handleClickEffects
        { websiteId := "w", appId := "a", appManagerUrl := "https://koru.example",
          phoneNumber := "5491112345678", defaultMessage := "Hello",
          position := "bottom-right" } "Android 14" true :=
  (analytics_failure_never_blocks_open
    { websiteId := "w", appId := "a", appManagerUrl := "https://koru.example",
      phoneNumber := "5491112345678", defaultMessage := "Hello",
      position := "bottom-right" } "Android 14").1 true

/-- C7: a keydown whose key is `Enter` or space runs exactly the click
handler's effect trace (with `preventDefault` called, in particular for
space); any other key calls neither `preventDefault` nor the handler. -/
theorem keyboard_activation_matches_click (ctx : ClickCtx) (ua : String)
    (analyticsRejects : Bool) (key : String) :
    ((key = "Enter" ∨ key = " ") →
      keydownHandler ctx ua analyticsRejects key =
        (true, handleClickEffects ctx ua analyticsRejects)) ∧
    (key ≠ "Enter" → key ≠ " " →
      keydownHandler ctx ua analyticsRejects key = (false, [])) := by
  constructor
  · rintro (h | h) <;> simp [keydownHandler, h]
  · intro h1 h2
    simp [keydownHandler, h1, h2]

/-- Witness for C7: space activates with `preventDefault`, the letter `a`
does nothing. -/
theorem keyboard_activation_matches_click_witness :
    keydownHandler
      { websiteId := "w", appId := "a", appManagerUrl := "u",
        phoneNumber := "5491112345678", defaultMessage := "",
        position := "bottom-right" } "Android 14" false " " =
      (true, handleClickEffects
        { websiteId := "w", appId := "a", appManagerUrl := "u",
          phoneNumber := "5491112345678", defaultMessage := "",
          position := "bottom-right" } "Android 14" false) ∧
    keydownHandler
      { websiteId := "w", appId := "a", appManagerUrl := "u",
        phoneNumber := "5491112345678", defaultMessage := "",
        position := "bottom-right" } "Android 14" false "a" = (false, []) :=
  ⟨(keyboard_activation_matches_click _ _ _ _).1 (Or.inr rfl),
   (keyboard_activation_matches_click _ _ _ _).2 (by decide) (by decide)⟩

/-- C8: if any of the three script attributes is missing (null or
empty), the bootstrap terminates before issuing any network request and
renders nothing, whatever the authorization outcome would have been. -/
theorem missing_attribute_no_network (websiteId appId appManagerUrl : Option String)
    (outcome : FetchOutcome)
    (h : jsFalsyStr websiteId = true ∨ jsFalsyStr appId = true ∨
      jsFalsyStr appManagerUrl = true) :
    ∀ e ∈ bootstrapEffects websiteId appId appManagerUrl outcome,
      isNetworkEffect e = false ∧ isAppendEffect e = false := by
  unfold bootstrapEffects
  have hc : (jsFalsyStr websiteId || jsFalsyStr appId || jsFalsyStr appManagerUrl) = true := by
    rcases h with h | h | h <;> simp [h]
  simp [hc, isNetworkEffect, isAppendEffect]

/-- Witness for C8 with the website id attribute absent. -/
theorem missing_attribute_no_network_witness :
    (bootstrapEffects none (some "app-1") (some "https://koru.example") .reject).all
      (fun e => !isNetworkEffect e && !isAppendEffect e) = true := by
  have h := missing_attribute_no_network none (some "app-1")
    (some "https://koru.example") .reject (Or.inl rfl)
  simpa [List.all_eq_true] using h

/-! ## Style-infix helpers -/

theorem infix_step {α : Type} (x : List α) {n h : List α} (hi : n <:+: h) :
    n <:+: x ++ h := by
  obtain ⟨s, t, he⟩ := hi
  exact ⟨x ++ s, t, by rw [← he]; simp [List.append_assoc]⟩

theorem prefix_three {α : Type} (a b c rest : List α) :
    a ++ (b ++ c) <+: a ++ (b ++ (c ++ rest)) := ⟨rest, by simp [List.append_assoc]⟩

/-- The interpolated position fragment occurs verbatim in the `cssText`. -/
theorem posFrag_infix_cssText (posFrag : String) (size : Int) (color : String) :
    posFrag.data <:+: (bubbleCssText posFrag size color).data := by
  unfold bubbleCssText
  simp only [String.data_append, List.append_assoc]
  exact infix_step _ (infix_step _ (infix_step _ (List.prefix_append _ _).isInfix))

/-- The `position: fixed;` declaration occurs verbatim in the `cssText`. -/
theorem positionFixed_infix_cssText (posFrag : String) (size : Int) (color : String) :
    ("position: fixed;").data <:+: (bubbleCssText posFrag size color).data := by
  unfold bubbleCssText
  simp only [String.data_append, List.append_assoc]
  exact infix_step _ (List.prefix_append _ _).isInfix

/-- The width declaration occurs verbatim in the `cssText`. -/
theorem widthDecl_infix_cssText (posFrag : String) (size : Int) (color : String) :
    ("width: " ++ toString size ++ "px;").data <:+: (bubbleCssText posFrag size color).data := by
  unfold bubbleCssText
  simp only [String.data_append, List.append_assoc]
  exact infix_step _ (infix_step _ (infix_step _ (infix_step _ (infix_step _
    (prefix_three _ _ _ _).isInfix))))

/-- The height declaration occurs verbatim in the `cssText`. -/
theorem heightDecl_infix_cssText (posFrag : String) (size : Int) (color : String) :
    ("height: " ++ toString size ++ "px;").data <:+: (bubbleCssText posFrag size color).data := by
  unfold bubbleCssText
  simp only [String.data_append, List.append_assoc]
  exact infix_step _ (infix_step _ (infix_step _ (infix_step _ (infix_step _
    (infix_step _ (infix_step _ (infix_step _ (infix_step _
      (prefix_three _ _ _ _).isInfix))))))))

/-- When the phone passes validation and the widget is enabled,
`initWidget` appends the constructed bubble and logs success. -/
theorem initWidget_renders (config : WidgetConfig) (pn : String)
    (hpn : config.phone_number = some pn) (hok : phoneRegexTest pn = true)
    (hen : config.enabled ≠ some false) :
    initWidgetEffects config =
      [.appendBody (mkBubble (resolveConfig config)),
       .log "[WhatsApp Bubble] Widget initialized successfully"] := by
  have hne : pn ≠ "" := by
    intro he; rw [he] at hok; exact absurd hok (by decide)
  have henb : (resolveConfig config).enabled = true := by
    cases hv : config.enabled with
    | none => simp [resolveConfig, jsNeqFalse, hv]
    | some b =>
      cases b with
      | false => exact absurd hv hen
      | true => simp [resolveConfig, jsNeqFalse, hv]
  unfold initWidgetEffects
  rw [hpn]
  simp [hne, hok, henb]

/-- C3: every valid, enabled configuration whose resolved position is one
of the four corner keywords renders a container whose inline style caries
the two corresponding CSS sides with offsets exactly `offset_y` (vertical
side) and `offset_x` (horizontal side), and whose width and height
declarations both carry the same resolved `bubble_size`; unset fields
resolve to `20`, `20`, `bottom-right` and `60`. -/
theorem rendered_corner_and_size (config : WidgetConfig) (pn : String)
    (hpn : config.phone_number = some pn) (hok : phoneRegexTest pn = true)
    (hen : config.enabled ≠ some false)
    (hpos : (resolveConfig config).position ∈
      ["bottom-right", "bottom-left", "top-right", "top-left"]) :
    ∃ frag,
      initWidgetEffects config =
        [.appendBody (mkBubble (resolveConfig config)),
         .log "[WhatsApp Bubble] Widget initialized successfully"] ∧
      positionsRecord (resolveConfig config).offsetX (resolveConfig config).offsetY
        (resolveConfig config).position = some frag ∧
      ((resolveConfig config).position = "bottom-right" →
        frag = "bottom: " ++ toString (resolveConfig config).offsetY ++ "px; right: "
          ++ toString (resolveConfig config).offsetX ++ "px;") ∧
      ((resolveConfig config).position = "bottom-left" →
        frag = "bottom: " ++ toString (resolveConfig config).offsetY ++ "px; left: "
          ++ toString (resolveConfig config).offsetX ++ "px;") ∧
      ((resolveConfig config).position = "top-right" →
        frag = "top: " ++ toString (resolveConfig config).offsetY ++ "px; right: "
          ++ toString (resolveConfig config).offsetX ++ "px;") ∧
      ((resolveConfig config).position = "top-left" →
        frag = "top: " ++ toString (resolveConfig config).offsetY ++ "px; left: "
          ++ toString (resolveConfig config).offsetX ++ "px;") ∧
      frag.data <:+: (mkBubble (resolveConfig config)).cssText.data ∧
      ("width: " ++ toString (resolveConfig config).bubbleSize ++ "px;").data <:+:
        (mkBubble (resolveConfig config)).cssText.data ∧
      ("height: " ++ toString (resolveConfig config).bubbleSize ++ "px;").data <:+:
        (mkBubble (resolveConfig config)).cssText.data ∧
      (config.position = none → (resolveConfig config).position = "bottom-right") ∧
      (config.offset_x = none → (resolveConfig config).offsetX = 20) ∧
      (config.offset_y = none → (resolveConfig config).offsetY = 20) ∧
      (config.bubble_size = none → (resolveConfig config).bubbleSize = 60) := by
  have heff := initWidget_renders config pn hpn hok hen
  have hdefaults :
      (config.position = none → (resolveConfig config).position = "bottom-right") ∧
      (config.offset_x = none → (resolveConfig config).offsetX = 20) ∧
      (config.offset_y = none → (resolveConfig config).offsetY = 20) ∧
      (config.bubble_size = none → (resolveConfig config).bubbleSize = 60) := by
    refine ⟨fun h => ?_, fun h => ?_, fun h => ?_, fun h => ?_⟩ <;>
      simp [resolveConfig, jsOrStr, jsOrInt, h]
  simp only [List.mem_cons, List.mem_singleton, List.not_mem_nil, or_false] at hpos
  have hcss : (mkBubble (resolveConfig config)).cssText =
      bubbleCssText
        ((positionsRecord (resolveConfig config).offsetX (resolveConfig config).offsetY
          (resolveConfig config).position).getD "undefined")
        (resolveConfig config).bubbleSize (resolveConfig config).bubbleColor := rfl
  rcases hpos with h | h | h | h
  · refine ⟨_, heff, by rw [h]; simp [positionsRecord], fun _ => rfl,
      fun hc => absurd (h ▸ hc) (by decide), fun hc => absurd (h ▸ hc) (by decide),
      fun hc => absurd (h ▸ hc) (by decide), ?_, ?_, ?_, hdefaults⟩ <;>
      rw [hcss, h] <;> simp only [positionsRecord, if_true, reduceIte, Option.getD_some]
    · exact posFrag_infix_cssText _ _ _
    · exact widthDecl_infix_cssText _ _ _
    · exact heightDecl_infix_cssText _ _ _
  · refine ⟨_, heff, by rw [h]; simp [positionsRecord],
      fun hc => absurd (h ▸ hc) (by decide), fun _ => rfl,
      fun hc => absurd (h ▸ hc) (by decide), fun hc => absurd (h ▸ hc) (by decide),
      ?_, ?_, ?_, hdefaults⟩ <;>
      rw [hcss, h] <;> simp only [positionsRecord, if_true, reduceIte, Option.getD_some]
    · exact posFrag_infix_cssText _ _ _
    · exact widthDecl_infix_cssText _ _ _
    · exact heightDecl_infix_cssText _ _ _
  · refine ⟨_, heff, by rw [h]; simp [positionsRecord],
      fun hc => absurd (h ▸ hc) (by decide), fun hc => absurd (h ▸ hc) (by decide),
      fun _ => rfl, fun hc => absurd (h ▸ hc) (by decide), ?_, ?_, ?_, hdefaults⟩ <;>
      rw [hcss, h] <;> simp only [positionsRecord, if_true, reduceIte, Option.getD_some]
    · exact posFrag_infix_cssText _ _ _
    · exact widthDecl_infix_cssText _ _ _
    · exact heightDecl_infix_cssText _ _ _
  · refine ⟨_, heff, by rw [h]; simp [positionsRecord],
      fun hc => absurd (h ▸ hc) (by decide), fun hc => absurd (h ▸ hc) (by decide),
      fun hc => absurd (h ▸ hc) (by decide), fun _ => rfl, ?_, ?_, ?_, hdefaults⟩ <;>
      rw [hcss, h] <;> simp only [positionsRecord, if_true, reduceIte, Option.getD_some]
    · exact posFrag_infix_cssText _ _ _
    · exact widthDecl_infix_cssText _ _ _
    · exact heightDecl_infix_cssText _ _ _

/-- Witness for C3 at a concrete valid configuration placed `top-left`
with offsets 5 and 7 and size 44. -/
theorem rendered_corner_and_size_witness :
    ∃ frag,
      initWidgetEffects cornerCfg =
        [.appendBody (mkBubble (resolveConfig cornerCfg)),
         .log "[WhatsApp Bubble] Widget initialized successfully"] ∧
      positionsRecord (resolveConfig cornerCfg).offsetX (resolveConfig cornerCfg).offsetY
        (resolveConfig cornerCfg).position = some frag ∧
      ((resolveConfig cornerCfg).position = "bottom-right" →
        frag = "bottom: " ++ toString (resolveConfig cornerCfg).offsetY ++ "px; right: "
          ++ toString (resolveConfig cornerCfg).offsetX ++ "px;") ∧
      ((resolveConfig cornerCfg).position = "bottom-left" →
        frag = "bottom: " ++ toString (resolveConfig cornerCfg).offsetY ++ "px; left: "
          ++ toString (resolveConfig cornerCfg).offsetX ++ "px;") ∧
      ((resolveConfig cornerCfg).position = "top-right" →
        frag = "top: " ++ toString (resolveConfig cornerCfg).offsetY ++ "px; right: "
          ++ toString (resolveConfig cornerCfg).offsetX ++ "px;") ∧
      ((resolveConfig cornerCfg).position = "top-left" →
        frag = "top: " ++ toString (resolveConfig cornerCfg).offsetY ++ "px; left: "
          ++ toString (resolveConfig cornerCfg).offsetX ++ "px;") ∧
      frag.data <:+: (mkBubble (resolveConfig cornerCfg)).cssText.data ∧
      ("width: " ++ toString (resolveConfig cornerCfg).bubbleSize ++ "px;").data <:+:
        (mkBubble (resolveConfig cornerCfg)).cssText.data ∧
      ("height: " ++ toString (resolveConfig cornerCfg).bubbleSize ++ "px;").data <:+:
        (mkBubble (resolveConfig cornerCfg)).cssText.data ∧
      (cornerCfg.position = none → (resolveConfig cornerCfg).position = "bottom-right") ∧
      (cornerCfg.offset_x = none → (resolveConfig cornerCfg).offsetX = 20) ∧
      (cornerCfg.offset_y = none → (resolveConfig cornerCfg).offsetY = 20) ∧
      (cornerCfg.bubble_size = none → (resolveConfig cornerCfg).bubbleSize = 60) :=
  rendered_corner_and_size cornerCfg "5491112345678" rfl (by decide) (by decide) (by decide)

set_option maxRecDepth 8000 in
/-- C10: a valid enabled configuration whose resolved position is none of
the four corner keywords does not abort and does not fall back to the
default corner: the `positions` lookup yields nothing, the bubble is
still built and appended with `position: fixed` in its style, and (at
default color, size and offsets) no corner-offset declaration appears. -/
theorem unknown_position_still_renders (config : WidgetConfig) (pn p : String)
    (hpn : config.phone_number = some pn) (hok : phoneRegexTest pn = true)
    (hen : config.enabled ≠ some false)
    (hp : (resolveConfig config).position = p)
    (h1 : p ≠ "bottom-right") (h2 : p ≠ "bottom-left")
    (h3 : p ≠ "top-right") (h4 : p ≠ "top-left") :
    positionsRecord (resolveConfig config).offsetX (resolveConfig config).offsetY p
        = none ∧
    initWidgetEffects config =
      [.appendBody (mkBubble (resolveConfig config)),
       .log "[WhatsApp Bubble] Widget initialized successfully"] ∧
    (mkBubble (resolveConfig config)).cssText =
      bubbleCssText "undefined" (resolveConfig config).bubbleSize
        (resolveConfig config).bubbleColor ∧
    ("position: fixed;").data <:+: (mkBubble (resolveConfig config)).cssText.data ∧
    (config.bubble_color = none → config.bubble_size = none →
      config.offset_x = none → config.offset_y = none →
      hasCornerDecl (mkBubble (resolveConfig config)).cssText = false) := by
  have hrec : positionsRecord (resolveConfig config).offsetX
      (resolveConfig config).offsetY p = none := by
    simp [positionsRecord, h1, h2, h3, h4]
  have hcss : (mkBubble (resolveConfig config)).cssText =
      bubbleCssText "undefined" (resolveConfig config).bubbleSize
        (resolveConfig config).bubbleColor := by
    show bubbleCssText
        ((positionsRecord (resolveConfig config).offsetX (resolveConfig config).offsetY
          (resolveConfig config).position).getD "undefined")
        (resolveConfig config).bubbleSize (resolveConfig config).bubbleColor = _
    rw [hp, hrec]
    rfl
  refine ⟨hrec, initWidget_renders config pn hpn hok hen, hcss, ?_, ?_⟩
  · rw [hcss]
    exact positionFixed_infix_cssText _ _ _
  · intro hc hs hx hy
    have hcol : (resolveConfig config).bubbleColor = "#25D366" := by
      simp [resolveConfig, jsOrStr, hc]
    have hsz : (resolveConfig config).bubbleSize = 60 := by
      simp [resolveConfig, jsOrInt, hs]
    rw [hcss, hcol, hsz]
    decide

/-- Witness for C10 at the concrete position string `middle`. -/
theorem unknown_position_still_renders_witness :
    positionsRecord (resolveConfig weirdPosCfg).offsetX (resolveConfig weirdPosCfg).offsetY
        "middle" = none ∧
    initWidgetEffects weirdPosCfg =
      [.appendBody (mkBubble (resolveConfig weirdPosCfg)),
       .log "[WhatsApp Bubble] Widget initialized successfully"] ∧
    (mkBubble (resolveConfig weirdPosCfg)).cssText =
      bubbleCssText "undefined" (resolveConfig weirdPosCfg).bubbleSize
        (resolveConfig weirdPosCfg).bubbleColor ∧
    ("position: fixed;").data <:+: (mkBubble (resolveConfig weirdPosCfg)).cssText.data ∧
    (weirdPosCfg.bubble_color = none → weirdPosCfg.bubble_size = none →
      weirdPosCfg.offset_x = none → weirdPosCfg.offset_y = none →
      hasCornerDecl (mkBubble (resolveConfig weirdPosCfg)).cssText = false) :=
  unknown_position_still_renders weirdPosCfg "5491112345678" "middle" rfl (by decide)
    (by decide) (by decide) (by decide) (by decide) (by decide) (by decide)

end WhatsAppBubble
